import Mathlib

/-!
Verification of the space-shooter simulation core (`src/space_shooter.py`).

The pure game-management functions (`get_current_level`,
`calculate_meteor_spawn_time`, `Player.update_laser_cooldown`) are embedded
directly.  Stateful per-frame code (`check_collisions`, the survival-score
accrual, the lives/game-over transition, `Meteor.update`, the game-over event
loop) is embedded as explicit state passing: pygame sprite groups become
lists, pixel-mask intersection tests become abstract Boolean predicates, and
`pygame.time.get_ticks()` becomes an explicit millisecond timestamp argument.
Python ints are Nat/Int; pygame float rects are modelled over Rat.
-/

/-- Window width in pixels (`WINDOW_WIDTH = 1280`). -/
def WINDOW_WIDTH : ℚ := 1280

/-- Window height in pixels (`WINDOW_HEIGHT = 720`). -/
def WINDOW_HEIGHT : ℚ := 720

/-- Points gained per second of survival (`SURVIVAL_POINTS_PER_SECOND = 10`). -/
def SURVIVAL_POINTS_PER_SECOND : ℕ := 10

/-- Points gained for destroying a meteor (`METEOR_DESTRUCTION_POINTS = 20`). -/
def METEOR_DESTRUCTION_POINTS : ℕ := 20

/-- Score thresholds for levels (`LEVEL_THRESHOLDS`). -/
def LEVEL_THRESHOLDS : List ℕ := [0, 300, 600, 900, 1200, 1500, 1800, 2100]

/-- Milliseconds between meteor spawns at level 1 per the source comment
(`BASE_METEOR_SPAWN_RATE = 700`). -/
def BASE_METEOR_SPAWN_RATE : ℤ := 700

/-- Spawn-time decrease per level (`METEOR_SPAWN_RATE_DECREASE = 100`). -/
def METEOR_SPAWN_RATE_DECREASE : ℤ := 100

/-- Minimum spawn time (`MIN_METEOR_SPAWN_RATE = 0`). -/
def MIN_METEOR_SPAWN_RATE : ℤ := 0

/-- Initial milliseconds between shots (`INITIAL_LASER_COOLDOWN = 400`). -/
def INITIAL_LASER_COOLDOWN : ℕ := 400

/-- Level at which laser cooldown starts increasing
(`LASER_COOLDOWN_INCREASE_LEVEL = 3`). -/
def LASER_COOLDOWN_INCREASE_LEVEL : ℕ := 3

/-- Cooldown increase per level (`LASER_COOLDOWN_INCREASE = 100`). -/
def LASER_COOLDOWN_INCREASE : ℕ := 100

/-- Maximum laser cooldown (`MAX_LASER_COOLDOWN = 800`). -/
def MAX_LASER_COOLDOWN : ℕ := 800

/-- Number of lives at game start (`INITIAL_LIVES = 3`), as an integer since
`Player.lives` is a Python int that is decremented without clamping. -/
def INITIAL_LIVES : ℤ := 3

/-- Loop body of `get_current_level` (source lines 359-366): iterate over
the threshold list with a running index `i`; on the first threshold with
`score < threshold` return `i`; after the loop return the total count,
which equals the list length when started at index 0. -/
def levelLoop (score : ℕ) : ℕ → List ℕ → ℕ
  | i, [] => i
  | i, t :: ts => if score < t then i else levelLoop score (i + 1) ts

/-- Level computed from a score against an arbitrary threshold list; the
source hard-wires `LEVEL_THRESHOLDS`, this parametric form also lets the
spec's example list `[0,300,600]` be evaluated. -/
def levelFor (thresholds : List ℕ) (score : ℕ) : ℕ :=
  levelLoop score 0 thresholds

/-- Source function `get_current_level(score)` over `LEVEL_THRESHOLDS`. -/
def get_current_level (score : ℕ) : ℕ :=
  levelFor LEVEL_THRESHOLDS score

/-- Source function `calculate_meteor_spawn_time(level)` (lines 369-376):
`max(BASE_METEOR_SPAWN_RATE - level * METEOR_SPAWN_RATE_DECREASE,
MIN_METEOR_SPAWN_RATE)`. -/
def calculate_meteor_spawn_time (level : ℤ) : ℤ :=
  max (BASE_METEOR_SPAWN_RATE - level * METEOR_SPAWN_RATE_DECREASE)
    MIN_METEOR_SPAWN_RATE

/-- Modelled from the spec: the claimed spawn-interval formula
`max(BASE_SPAWN - (L-1) * SPAWN_DECREASE, MIN_SPAWN)`, written from the
spec's words for comparison against `calculate_meteor_spawn_time`. -/
def spawnIntervalMsSpec (level : ℤ) : ℤ :=
  max (BASE_METEOR_SPAWN_RATE - (level - 1) * METEOR_SPAWN_RATE_DECREASE)
    MIN_METEOR_SPAWN_RATE

/-- Source method `Player.update_laser_cooldown(current_level)`
(lines 207-215): when `current_level >= LASER_COOLDOWN_INCREASE_LEVEL`, set
the cooldown to `min(INITIAL_LASER_COOLDOWN + level_factor *
LASER_COOLDOWN_INCREASE, MAX_LASER_COOLDOWN)` with
`level_factor = current_level - LASER_COOLDOWN_INCREASE_LEVEL + 1`;
otherwise leave the stored cooldown unchanged. -/
def update_laser_cooldown (laser_cooldown : ℕ) (current_level : ℕ) : ℕ :=
  if LASER_COOLDOWN_INCREASE_LEVEL ≤ current_level then
    min (INITIAL_LASER_COOLDOWN
      + (current_level - LASER_COOLDOWN_INCREASE_LEVEL + 1)
        * LASER_COOLDOWN_INCREASE) MAX_LASER_COOLDOWN
  else laser_cooldown

/-- Cooldown the player carries at a given level: within a run the level is
non-decreasing and the cooldown starts at `INITIAL_LASER_COOLDOWN`, so below
the increase level it still holds its initial value. -/
def laser_cooldown_at (level : ℕ) : ℕ :=
  update_laser_cooldown INITIAL_LASER_COOLDOWN level

-- Helper lemmas about `levelLoop`.

theorem levelLoop_le (score i : ℕ) (ts : List ℕ) :
    levelLoop score i ts ≤ i + ts.length := by
  induction ts generalizing i with
  | nil => simp [levelLoop]
  | cons t ts ih =>
    simp only [levelLoop]
    split
    · omega
    · have := ih (i + 1)
      simpa [Nat.add_comm, Nat.add_left_comm] using Nat.le_trans this (by omega)

theorem levelLoop_ge (score i : ℕ) (ts : List ℕ) :
    i ≤ levelLoop score i ts := by
  induction ts generalizing i with
  | nil => simp [levelLoop]
  | cons t ts ih =>
    simp only [levelLoop]
    split
    · exact Nat.le_refl i
    · exact Nat.le_trans (by omega) (ih (i + 1))

theorem levelLoop_mono (score score2 i : ℕ) (ts : List ℕ)
    (h : score ≤ score2) :
    levelLoop score i ts ≤ levelLoop score2 i ts := by
  induction ts generalizing i with
  | nil => simp [levelLoop]
  | cons t ts ih =>
    simp only [levelLoop]
    by_cases h1 : score < t
    · simp only [h1, if_true]
      by_cases h2 : score2 < t
      · simp [h2]
      · simp only [h2, if_false]
        exact Nat.le_trans (by omega) (levelLoop_ge score2 (i + 1) ts)
    · have h2 : ¬ score2 < t := by omega
      simp only [h1, h2, if_false]
      exact ih (i + 1)

theorem levelLoop_first_hit (score i j : ℕ) (ts : List ℕ)
    (hj : i ≤ j) (hlt : j < levelLoop score i ts) :
    ts.getD (j - i) 0 ≤ score := by
  induction ts generalizing i with
  | nil => simp [levelLoop] at hlt; omega
  | cons t ts ih =>
    simp only [levelLoop] at hlt
    by_cases h1 : score < t
    · simp [h1] at hlt; omega
    · simp only [h1, if_false] at hlt
      by_cases hij : j = i
      · subst hij; simpa using by omega
      · have : i + 1 ≤ j := by omega
        have := ih (i + 1) this hlt
        have hsub : j - i = (j - (i + 1)) + 1 := by omega
        simpa [hsub] using this

theorem levelLoop_stops_below (score i : ℕ) (ts : List ℕ)
    (h : levelLoop score i ts < i + ts.length) :
    score < ts.getD (levelLoop score i ts - i) 0 := by
  induction ts generalizing i with
  | nil => simp [levelLoop] at h
  | cons t ts ih =>
    simp only [levelLoop, List.length_cons] at h ⊢
    by_cases h1 : score < t
    · simp [h1]
    · simp only [h1, if_false] at h ⊢
      have hge := levelLoop_ge score (i + 1) ts
      have := ih (i + 1) (by omega)
      have hsub : levelLoop score (i + 1) ts - i
          = (levelLoop score (i + 1) ts - (i + 1)) + 1 := by omega
      simpa [hsub] using this

/-- C1 (amended): `get_current_level(score)` returns the smallest index `i`
with `score < T[i]` and returns `K = len(T)` when no such index exists (so
for thresholds `[0,300,600]` the past-list ceiling at score 1000 is 3, not
4); it is monotonically non-decreasing in the score, `get_current_level(0)`
is 1, and on `[0,300,600]` it returns 1 at 299 and 2 at 300. -/
theorem get_current_level_correct (T : List ℕ) (s : ℕ) :
    levelFor T s ≤ T.length
    ∧ (∀ j, j < levelFor T s → T.getD j 0 ≤ s)
    ∧ (levelFor T s < T.length → s < T.getD (levelFor T s) 0)
    ∧ (∀ s2, s ≤ s2 → levelFor T s ≤ levelFor T s2)
    ∧ get_current_level 0 = 1
    ∧ levelFor [0, 300, 600] 299 = 1
    ∧ levelFor [0, 300, 600] 300 = 2
    ∧ levelFor [0, 300, 600] 1000 = 3 := by
  refine ⟨?_, ?_, ?_, ?_, by decide, by decide, by decide, by decide⟩
  · simpa using levelLoop_le s 0 T
  · intro j hj
    simpa using levelLoop_first_hit s 0 j T (Nat.zero_le j) hj
  · intro h
    simpa using levelLoop_stops_below s 0 T (by simpa using h)
  · intro s2 h
    exact levelLoop_mono s s2 0 T h

/-- Witness for `get_current_level_correct` at the spec's example list. -/
theorem get_current_level_correct_witness :
    levelFor [0, 300, 600] 5 ≤ 3 := by
  simpa using (get_current_level_correct [0, 300, 600] 5).1

/-- C1 counterexample: past the list `[0,300,600]` the code returns the list
length 3, not 4 as the claim states for score 1000. -/
theorem get_current_level_past_list_value :
    levelFor [0, 300, 600] 1000 = 3 ∧ levelFor [0, 300, 600] 1000 ≠ 4 := by
  decide

/-- C4: the claim's formula `max(BASE - (L-1) * DECREASE, MIN)` gives 700 at
level 1 (matching the source comment that `BASE_METEOR_SPAWN_RATE` is the
spawn interval at level 1), but the code computes
`max(BASE - L * DECREASE, MIN)` and returns 600 at level 1.  The
monotonicity and floor parts of the claim do hold for the code. -/
theorem calculate_meteor_spawn_time_level1 :
    calculate_meteor_spawn_time 1 = 600 ∧ spawnIntervalMsSpec 1 = 700
    ∧ (∀ L M : ℤ, L ≤ M →
        calculate_meteor_spawn_time M ≤ calculate_meteor_spawn_time L)
    ∧ (∀ L : ℤ, MIN_METEOR_SPAWN_RATE ≤ calculate_meteor_spawn_time L) := by
  refine ⟨by decide, by decide, ?_, ?_⟩
  · intro L M h
    simp only [calculate_meteor_spawn_time, BASE_METEOR_SPAWN_RATE,
      METEOR_SPAWN_RATE_DECREASE, MIN_METEOR_SPAWN_RATE]
    omega
  · intro L
    exact le_max_right _ _

/-- C5 counterexample: at levels 6 and 7 (both at or above
`LASER_COOLDOWN_INCREASE_LEVEL`) the cooldown is 800 in both cases, so it is
not strictly increasing at or above the threshold level. -/
theorem laser_cooldown_saturation :
    update_laser_cooldown INITIAL_LASER_COOLDOWN 6 = 800
    ∧ update_laser_cooldown INITIAL_LASER_COOLDOWN 7 = 800
    ∧ LASER_COOLDOWN_INCREASE_LEVEL ≤ 6 := by
  decide

/-- C5 (amended): the cooldown is constant at `INITIAL_LASER_COOLDOWN` below
`LASER_COOLDOWN_INCREASE_LEVEL`, equals
`min(INITIAL + (L - THRESHOLD + 1) * INCREASE, MAX)` at or above it, never
exceeds `MAX_LASER_COOLDOWN`, is monotonically non-decreasing in the level,
and is strictly increasing at or above the threshold only while still below
the `MAX_LASER_COOLDOWN` cap. -/
theorem laser_cooldown_schedule (L prev : ℕ) :
    (L < LASER_COOLDOWN_INCREASE_LEVEL → update_laser_cooldown prev L = prev)
    ∧ (LASER_COOLDOWN_INCREASE_LEVEL ≤ L → update_laser_cooldown prev L
        = min (INITIAL_LASER_COOLDOWN
            + (L - LASER_COOLDOWN_INCREASE_LEVEL + 1) * LASER_COOLDOWN_INCREASE)
          MAX_LASER_COOLDOWN)
    ∧ laser_cooldown_at L ≤ MAX_LASER_COOLDOWN
    ∧ (∀ M, L ≤ M → laser_cooldown_at L ≤ laser_cooldown_at M)
    ∧ (LASER_COOLDOWN_INCREASE_LEVEL ≤ L → laser_cooldown_at L < MAX_LASER_COOLDOWN
        → laser_cooldown_at L < laser_cooldown_at (L + 1)) := by
  refine ⟨?_, ?_, ?_, ?_, ?_⟩ <;>
    simp only [laser_cooldown_at, update_laser_cooldown, INITIAL_LASER_COOLDOWN,
      LASER_COOLDOWN_INCREASE_LEVEL, LASER_COOLDOWN_INCREASE, MAX_LASER_COOLDOWN]
  · intro h
    rw [if_neg (by omega)]
  · intro h
    rw [if_pos h]
  · split_ifs <;> omega
  · intro M hM
    split_ifs <;> omega
  · intro h1 h2
    split_ifs at h2 ⊢ <;> omega

/-- Witness for `laser_cooldown_schedule` at level 6. -/
theorem laser_cooldown_schedule_witness :
    update_laser_cooldown 0 6
      = min (INITIAL_LASER_COOLDOWN
          + (6 - LASER_COOLDOWN_INCREASE_LEVEL + 1) * LASER_COOLDOWN_INCREASE)
        MAX_LASER_COOLDOWN :=
  (laser_cooldown_schedule 6 0).2.1 (by decide)

/-- Player stats relevant to the life system (`Player.__init__`,
lines 146-147): `lives` as a Python int and the `alive` flag. -/
structure PlayerState where
  lives : ℤ
  alive : Bool
  deriving DecidableEq

/-- Source method `Player.take_damage()` (lines 197-205): decrement `lives`;
when the result is `<= 0`, clear `alive`.  Sound playback is external. -/
def take_damage (p : PlayerState) : PlayerState :=
  { lives := p.lives - 1,
    alive := if p.lives - 1 ≤ 0 then false else p.alive }

/-- Run state for the life system: the player plus the `game_over` flag of
`run_game`. -/
structure RunLifeState where
  player : PlayerState
  game_over : Bool
  deriving DecidableEq

/-- One frame of `run_game` restricted to the life system (lines 501,
541-545): when `game_over` is set the frame only draws; otherwise
`check_collisions` calls `take_damage` at most once (exactly when some meteor
mask-collides with the player, abstracted as `hit`), and then `game_over` is
set if the player is no longer alive. -/
def game_step (hit : Bool) (s : RunLifeState) : RunLifeState :=
  if s.game_over then s
  else
    { player := if hit then take_damage s.player else s.player,
      game_over :=
        if (if hit then take_damage s.player else s.player).alive then
          s.game_over
        else true }

/-- State at the start of a run (`Player.__init__`, `run_game` line 479). -/
def initial_run_state : RunLifeState :=
  { player := { lives := INITIAL_LIVES, alive := true }, game_over := false }

/-- Life-system state after a sequence of frames, each carrying whether a
meteor hit the player that frame. -/
def run_steps (hits : List Bool) : RunLifeState :=
  hits.foldl (fun s h => game_step h s) initial_run_state

/-- Inductive invariant of the life system. -/
def LifeInv (s : RunLifeState) : Prop :=
  0 ≤ s.player.lives ∧ s.player.lives ≤ INITIAL_LIVES
    ∧ (s.player.alive = true ↔ 0 < s.player.lives)
    ∧ (s.game_over = true ↔ s.player.lives = 0)

theorem game_step_preserves (h : Bool) (s : RunLifeState) (hs : LifeInv s) :
    LifeInv (game_step h s) := by
  obtain ⟨⟨lives, alive⟩, go⟩ := s
  obtain ⟨ha, hb, hc, hd⟩ := hs
  simp only at ha hb hc hd
  cases go with
  | true => exact ⟨ha, hb, hc, hd⟩
  | false =>
    have hl : 0 < lives := by
      have := hd.mpr
      simp only [Bool.false_eq_true, false_iff] at hd
      omega
    have halive : alive = true := hc.mpr hl
    subst halive
    cases h with
    | false =>
      simp only [game_step, LifeInv, if_false, Bool.false_eq_true, if_true]
      exact ⟨ha, hb, by simp; omega, by simp; omega⟩
    | true =>
      simp only [game_step, take_damage, LifeInv, Bool.false_eq_true, if_false,
        if_true]
      by_cases hz : lives - 1 ≤ 0
      · simp only [hz, if_true, Bool.false_eq_true, if_false]
        refine ⟨by omega, by omega, by simp; omega, by simp; omega⟩
      · simp only [hz, if_false, if_true]
        refine ⟨by omega, by omega, by simp; omega, by simp; omega⟩

theorem game_step_game_over_mono (h : Bool) (s : RunLifeState)
    (hgo : s.game_over = true) : (game_step h s).game_over = true := by
  simp [game_step, hgo]

theorem game_step_lives_le (h : Bool) (s : RunLifeState) :
    (game_step h s).player.lives ≤ s.player.lives := by
  by_cases hgo : s.game_over
  · simp [game_step, hgo]
  · cases h
    · simp [game_step, hgo]
    · simp only [game_step, hgo, take_damage, if_true, if_false,
        Bool.false_eq_true]
      omega

theorem run_steps_inv (hits : List Bool) : LifeInv (run_steps hits) := by
  have aux : ∀ l : List Bool, ∀ s : RunLifeState, LifeInv s →
      LifeInv (l.foldl (fun t h2 => game_step h2 t) s) := by
    intro l
    induction l with
    | nil => intro s hs; simpa using hs
    | cons h2 rest ih =>
      intro s hs
      exact ih _ (game_step_preserves h2 s hs)
  refine aux hits initial_run_state ?_
  refine ⟨by norm_num [initial_run_state, INITIAL_LIVES], ?_, ?_, ?_⟩ <;>
    simp [initial_run_state, INITIAL_LIVES]

/-- C6: in every reachable state of a run the player's lives lie between 0
and `INITIAL_LIVES`, the lives only decrease (each frame leaves them equal or
one lower), the `alive` flag is down exactly when the lives have reached 0
(so it flips exactly once, at the frame the lives reach 0, and the `game_over`
transition fires that same frame), and `game_over`, once set, stays set, so
exactly one transition to the game-over phase occurs per run. -/
theorem player_lives_invariant (hits : List Bool) :
    0 ≤ (run_steps hits).player.lives
    ∧ (run_steps hits).player.lives ≤ INITIAL_LIVES
    ∧ ((run_steps hits).player.alive = true ↔ 0 < (run_steps hits).player.lives)
    ∧ ((run_steps hits).game_over = true ↔ (run_steps hits).player.lives = 0)
    ∧ ((run_steps hits).game_over = true ↔ (run_steps hits).player.alive = false)
    ∧ (∀ h2 t, (game_step h2 t).player.lives ≤ t.player.lives)
    ∧ (∀ h2 t, t.game_over = true → (game_step h2 t).game_over = true) := by
  obtain ⟨ha, hb, hc, hd⟩ := run_steps_inv hits
  refine ⟨ha, hb, hc, hd, ?_, game_step_lives_le, game_step_game_over_mono⟩
  rw [hd]
  rw [← Bool.not_eq_true, hc]
  omega

/-- Witness for `player_lives_invariant` on a run with three hits. -/
theorem player_lives_invariant_witness :
    0 ≤ (run_steps [true, true, true]).player.lives :=
  (player_lives_invariant [true, true, true]).1

/-- Passive survival scoring (`run_game` lines 517-520): when at least
1000 ms have elapsed since `last_score_update`, add
`SURVIVAL_POINTS_PER_SECOND` once and reset `last_score_update` to the
current timestamp; otherwise change nothing.  Returns the new
`(score, last_score_update)` pair. -/
def survival_tick (score last_score_update current_time : ℕ) : ℕ × ℕ :=
  if 1000 ≤ current_time - last_score_update then
    (score + SURVIVAL_POINTS_PER_SECOND, current_time)
  else (score, last_score_update)

/-- Accrual state after running `survival_tick` over a list of frame
timestamps. -/
def run_survival (frames : List ℕ) (p : ℕ × ℕ) : ℕ × ℕ :=
  frames.foldl (fun q now => survival_tick q.1 q.2 now) p

/-- Frame timestamps `1000, 2000, ..., 1000*n`: one frame per simulated
second boundary. -/
def timesList (n : ℕ) : List ℕ :=
  (List.range n).map fun i => 1000 * (i + 1)

theorem run_survival_timesList (n : ℕ) :
    run_survival (timesList n) (0, 0)
      = (SURVIVAL_POINTS_PER_SECOND * n, 1000 * n) := by
  induction n with
  | zero => simp [run_survival, timesList]
  | succ n ih =>
    have hsplit : timesList (n + 1) = timesList n ++ [1000 * (n + 1)] := by
      simp [timesList, List.range_succ]
    rw [hsplit]
    unfold run_survival at ih ⊢
    rw [List.foldl_append, ih]
    show survival_tick (SURVIVAL_POINTS_PER_SECOND * n) (1000 * n)
        (1000 * (n + 1))
      = (SURVIVAL_POINTS_PER_SECOND * (n + 1), 1000 * (n + 1))
    unfold survival_tick
    rw [if_pos (by omega)]
    simp only [Prod.mk.injEq, SURVIVAL_POINTS_PER_SECOND]
    exact ⟨by omega, trivial⟩

/-- C8: passive survival scoring adds exactly `SURVIVAL_POINTS_PER_SECOND`
once whenever at least one second has elapsed since the last accrual
(decided by timestamp comparison) and adds nothing on other frames (no
per-frame fractional credit); consequently, frames at each one-second
boundary for 30 simulated seconds starting from score 0 accrue score 300,
and the level derived from the score flips from 1 to 2 exactly as the score
crosses 300. -/
theorem survival_scoring (n : ℕ) :
    run_survival (timesList n) (0, 0)
      = (SURVIVAL_POINTS_PER_SECOND * n, 1000 * n)
    ∧ (∀ s l now, now - l < 1000 → survival_tick s l now = (s, l))
    ∧ (∀ s l now, 1000 ≤ now - l →
        survival_tick s l now = (s + SURVIVAL_POINTS_PER_SECOND, now))
    ∧ run_survival (timesList 30) (0, 0) = (300, 30000)
    ∧ get_current_level 299 = 1 ∧ get_current_level 300 = 2 := by
  refine ⟨run_survival_timesList n, ?_, ?_, ?_, by decide, by decide⟩
  · intro s l now h
    rw [survival_tick, if_neg (by omega)]
  · intro s l now h
    rw [survival_tick, if_pos h]
  · have := run_survival_timesList 30
    norm_num [SURVIVAL_POINTS_PER_SECOND] at this
    exact this

/-- Witness for `survival_scoring` after two simulated seconds. -/
theorem survival_scoring_witness :
    run_survival (timesList 2) (0, 0)
      = (SURVIVAL_POINTS_PER_SECOND * 2, 1000 * 2) :=
  (survival_scoring 2).1

/-- Result of one `check_collisions` pass (lines 379-398): the surviving
meteor and laser groups, the updated score, one recorded explosion per laser
that hit something (the `AnimatedExplosion` spawned at that laser's
`rect.midtop`), and the number of `Player.take_damage` calls made. -/
structure CollisionOut (α β : Type) where
  score : ℕ
  meteors : List β
  lasers : List α
  explosions : List α
  damageEvents : ℕ
  deriving DecidableEq

/-- pygame call `pygame.sprite.spritecollide(sprite, group, True, collide_mask)`:
return every member of the group that collides with the sprite, removing all
of them from the group; the pixel-mask test is abstracted as the Boolean
predicate `collides`.  Returns the pair (collided, survivors). -/
def spritecollide {β : Type} (collides : β → Bool) (group : List β) :
    List β × List β :=
  (group.filter collides, group.filter fun b => !(collides b))

/-- Body of the laser loop in `check_collisions` (lines 386-397): collect the
meteors hit by this laser, removing all of them from the group; when at least
one was hit, spawn one explosion at the laser, kill the laser, and add
`METEOR_DESTRUCTION_POINTS` once; a laser that hit nothing stays alive. -/
def laser_hit_step {α β : Type} (laserHits : α → β → Bool)
    (out : CollisionOut α β) (l : α) : CollisionOut α β :=
  if ((spritecollide (laserHits l) out.meteors).1).isEmpty then
    { out with lasers := out.lasers ++ [l] }
  else
    { out with
      meteors := (spritecollide (laserHits l) out.meteors).2,
      explosions := out.explosions ++ [l],
      score := out.score + METEOR_DESTRUCTION_POINTS }

/-- Source function `check_collisions(player, score)` (lines 379-398): first
the player-meteor pass (all meteors mask-colliding with the player are
removed and `take_damage` is called once if any collided), then the
laser-meteor loop over the laser group. -/
def check_collisions {α β : Type} (playerHits : β → Bool)
    (laserHits : α → β → Bool) (lasers : List α) (meteors : List β)
    (score : ℕ) : CollisionOut α β :=
  lasers.foldl (laser_hit_step laserHits)
    { score := score,
      meteors := (spritecollide playerHits meteors).2,
      lasers := [],
      explosions := [],
      damageEvents :=
        if ((spritecollide playerHits meteors).1).isEmpty then 0 else 1 }

theorem laser_step_damage {α β : Type} (laserHits : α → β → Bool)
    (out : CollisionOut α β) (l : α) :
    (laser_hit_step laserHits out l).damageEvents = out.damageEvents := by
  unfold laser_hit_step
  split <;> rfl

theorem laser_step_meteors_subset {α β : Type} (laserHits : α → β → Bool)
    (out : CollisionOut α β) (l : α) :
    (laser_hit_step laserHits out l).meteors ⊆ out.meteors := by
  unfold laser_hit_step spritecollide
  split
  · exact fun m hm => hm
  · intro m hm
    exact List.mem_of_mem_filter hm

theorem foldl_laser_damage {α β : Type} (laserHits : α → β → Bool)
    (ls : List α) (out : CollisionOut α β) :
    (ls.foldl (laser_hit_step laserHits) out).damageEvents
      = out.damageEvents := by
  induction ls generalizing out with
  | nil => rfl
  | cons l ls ih =>
    rw [List.foldl_cons, ih, laser_step_damage]

theorem foldl_laser_meteors {α β : Type} (laserHits : α → β → Bool)
    (ls : List α) (out : CollisionOut α β) (m : β)
    (hm : m ∈ (ls.foldl (laser_hit_step laserHits) out).meteors) :
    m ∈ out.meteors := by
  induction ls generalizing out with
  | nil => exact hm
  | cons l ls ih =>
    rw [List.foldl_cons] at hm
    exact laser_step_meteors_subset laserHits out l (ih _ hm)

/-- C3 (amended): every meteor whose mask intersects the player's is removed
by the pass, but the simultaneous hits are coalesced: `take_damage` is called
exactly once per frame when at least one meteor intersects the player, and
never more than once, so N overlapping meteors cost one life, not N. -/
theorem player_collision_outcome (α β : Type) (playerHits : β → Bool)
    (laserHits : α → β → Bool) (lasers : List α) (meteors : List β)
    (score : ℕ) :
    ((check_collisions playerHits laserHits lasers meteors score).damageEvents
        = if (meteors.filter playerHits).isEmpty then 0 else 1)
    ∧ (check_collisions playerHits laserHits lasers meteors score).damageEvents
        ≤ 1
    ∧ ∀ m ∈ meteors, playerHits m = true →
        m ∉ (check_collisions playerHits laserHits lasers meteors score).meteors := by
  refine ⟨?_, ?_, ?_⟩
  · unfold check_collisions
    rw [foldl_laser_damage]
    simp [spritecollide]
  · unfold check_collisions
    rw [foldl_laser_damage]
    simp only [spritecollide]
    split <;> omega
  · intro m hm hpm hmem
    unfold check_collisions at hmem
    have hinit := foldl_laser_meteors laserHits lasers _ m hmem
    simp only [spritecollide] at hinit
    have := List.of_mem_filter hinit
    simp [hpm] at this

/-- Witness for `player_collision_outcome` with two meteors on the player. -/
theorem player_collision_outcome_witness :
    (check_collisions (fun _ : ℕ => true) (fun _ _ : ℕ => false)
        ([] : List ℕ) [0, 1] 0).damageEvents ≤ 1 :=
  (player_collision_outcome ℕ ℕ (fun _ => true) (fun _ _ => false)
    [] [0, 1] 0).2.1

/-- C3 counterexample: two meteors both mask-collide with the player in the
same frame; both are destroyed but `take_damage` runs only once (one damage
event, not two as the claim's per-hazard no-coalescing requires). -/
theorem player_two_meteor_single_damage :
    (check_collisions (fun _ : ℕ => true) (fun _ _ : ℕ => false)
        ([] : List ℕ) [0, 1] 0).damageEvents = 1
    ∧ (check_collisions (fun _ : ℕ => true) (fun _ _ : ℕ => false)
        ([] : List ℕ) [0, 1] 0).meteors = [] := by
  decide

/-- C2 (amended): a laser whose mask intersects one or more of the meteors
still alive when it is processed destroys ALL of the meteors it intersects
(pygame's `spritecollide` with `dokill=True` removes every collided meteor,
not just the first), is itself destroyed exactly once, spawns exactly one
explosion at its position, and adds `METEOR_DESTRUCTION_POINTS` to the score
exactly once — the score never double-counts even when several meteors are
destroyed by the same laser. -/
theorem laser_collision_outcome (α β : Type) (playerHits : β → Bool)
    (laserHits : α → β → Bool) (l : α) (meteors : List β) (score : ℕ)
    (h : ((meteors.filter fun m => !(playerHits m)).filter (laserHits l))
        ≠ []) :
    (check_collisions playerHits laserHits [l] meteors score).score
        = score + METEOR_DESTRUCTION_POINTS
    ∧ (check_collisions playerHits laserHits [l] meteors score).lasers = []
    ∧ (check_collisions playerHits laserHits [l] meteors score).explosions
        = [l]
    ∧ (check_collisions playerHits laserHits [l] meteors score).meteors
        = (meteors.filter fun m => !(playerHits m)).filter
            fun m => !(laserHits l m) := by
  have hne : ((meteors.filter fun m => !(playerHits m)).filter
      (laserHits l)).isEmpty = false := by
    cases hcase : ((meteors.filter fun m => !(playerHits m)).filter
        (laserHits l)).isEmpty
    · rfl
    · exact absurd (by simpa using hcase) h
  unfold check_collisions laser_hit_step spritecollide
  simp only [List.foldl_cons, List.foldl_nil, hne, Bool.false_eq_true,
    if_false]
  simp

/-- Witness for `laser_collision_outcome`: one laser over one meteor. -/
theorem laser_collision_outcome_witness :
    (check_collisions (fun _ : ℕ => false) (fun _ _ : ℕ => true)
        [5] [1] 0).score = 0 + METEOR_DESTRUCTION_POINTS :=
  (laser_collision_outcome ℕ ℕ (fun _ => false) (fun _ _ => true)
    5 [1] 0 (by decide)).1

/-- C2 counterexample: one laser overlapping two meteors in the same step
destroys BOTH of them (the surviving meteor group is empty, where the claim
demands exactly one destruction), while the laser dies once, one explosion
spawns, and the score rises by `METEOR_DESTRUCTION_POINTS` only once. -/
theorem laser_double_kill :
    (check_collisions (fun _ : ℕ => false) (fun _ _ : ℕ => true)
        [7] [0, 1] 0).meteors = []
    ∧ (check_collisions (fun _ : ℕ => false) (fun _ _ : ℕ => true)
        [7] [0, 1] 0).score = 0 + METEOR_DESTRUCTION_POINTS
    ∧ (check_collisions (fun _ : ℕ => false) (fun _ _ : ℕ => true)
        [7] [0, 1] 0).explosions = [7]
    ∧ (check_collisions (fun _ : ℕ => false) (fun _ _ : ℕ => true)
        [7] [0, 1] 0).lasers = [] := by
  decide

/-- State of a falling meteor (`Meteor.__init__`, lines 270-297): center
position, drift direction, speed, rotation state, creation timestamp
(`pygame.time.get_ticks()` at construction), and liveness. -/
structure Meteor where
  centerx : ℚ
  centery : ℚ
  dirx : ℚ
  diry : ℚ
  speed : ℚ
  rotation : ℚ
  rotation_speed : ℚ
  creation_time : ℕ
  alive : Bool

/-- Source method `Meteor.update(dt)` (lines 299-318): move the center by
`direction * speed * dt`, advance the rotation, re-center the rotated image
rect on the same center, then kill the sprite when
`current_time - creation_time >= 5000` or the rect's top edge is more than
100 px below the window bottom.  The rotozoomed image extent is pixel data
external to the core, so the current half-height of the rotated image enters
as the parameter `halfHeight` and the rect top is `centery - halfHeight`. -/
def Meteor.update (m : Meteor) (dt : ℚ) (current_time : ℕ)
    (halfHeight : ℚ) : Meteor :=
  { m with
    centerx := m.centerx + m.dirx * m.speed * dt,
    centery := m.centery + m.diry * m.speed * dt,
    rotation := m.rotation + m.rotation_speed * dt,
    alive :=
      if 5000 ≤ current_time - m.creation_time
          ∨ WINDOW_HEIGHT + 100 < m.centery + m.diry * m.speed * dt - halfHeight
      then false
      else m.alive }

/-- C7 (amended): a meteor never survives an update step once its age since
`creation_time` is at least 5000 ms (whatever its position, even fully
on-screen), and it is likewise destroyed once its top edge is more than
100 px below the bottom of the play area (`rect.top > WINDOW_HEIGHT + 100`);
merely exiting the play area below is not enough. -/
theorem meteor_update_prunes (m : Meteor) (dt : ℚ) (now : ℕ) (hh : ℚ) :
    (5000 ≤ now - m.creation_time → (Meteor.update m dt now hh).alive = false)
    ∧ (WINDOW_HEIGHT + 100 < m.centery + m.diry * m.speed * dt - hh →
        (Meteor.update m dt now hh).alive = false) := by
  constructor <;> intro h <;> simp [Meteor.update, h]

/-- Witness for `meteor_update_prunes`: an expired meteor dies. -/
theorem meteor_update_prunes_witness :
    (Meteor.update
      { centerx := 0, centery := 0, dirx := 0, diry := 1, speed := 500,
        rotation := 0, rotation_speed := 50, creation_time := 0,
        alive := true } 0 6000 10).alive = false :=
  (meteor_update_prunes
    { centerx := 0, centery := 0, dirx := 0, diry := 1, speed := 500,
      rotation := 0, rotation_speed := 50, creation_time := 0,
      alive := true } 0 6000 10).1 (by norm_num)

/-- Concrete meteor whose sprite lies entirely below the visible play area
(top edge at y = 721 for half-height 50) but less than 100 px past it. -/
def meteor_below : Meteor :=
  { centerx := 640, centery := 771, dirx := 0, diry := 1, speed := 500,
    rotation := 0, rotation_speed := 50, creation_time := 0, alive := true }

/-- C7 counterexample: a young meteor that has exited the play area below
(its top edge, 721, is beyond `WINDOW_HEIGHT = 720`) survives the update
step, because the code only kills at `top > WINDOW_HEIGHT + 100`. -/
theorem meteor_below_screen_survives :
    (Meteor.update meteor_below 0 100 50).alive = true
    ∧ WINDOW_HEIGHT
        < (Meteor.update meteor_below 0 100 50).centery - 50
    ∧ (100 : ℕ) - meteor_below.creation_time < 5000 := by
  refine ⟨?_, ?_, by norm_num [meteor_below]⟩
  · simp only [Meteor.update]
    rw [if_neg]
    · norm_num [meteor_below]
    · push_neg
      constructor
      · norm_num [meteor_below]
      · norm_num [meteor_below, WINDOW_HEIGHT]
  · norm_num [Meteor.update, meteor_below, WINDOW_HEIGHT]

/-- Float rectangle in pygame's convention, stored by center and size as
produced by `surface.get_frect(center=...)`. -/
structure FRect where
  cx : ℚ
  cy : ℚ
  w : ℚ
  h : ℚ

/-- Left edge of a center-placed float rect. -/
def FRect.left (r : FRect) : ℚ := r.cx - r.w / 2

/-- Right edge of a center-placed float rect. -/
def FRect.right (r : FRect) : ℚ := r.cx + r.w / 2

/-- Spawn rect of a meteor (`Meteor.__init__`, lines 276-280): the image
rect is placed with CENTER `(r1, r2)` where
`r1 = random.randint(0, WINDOW_WIDTH - image_width)` and
`r2 = random.randint(-200, -50)`; `w` and `h` are the image size. -/
def meteor_init_rect (w h r1 r2 : ℚ) : FRect :=
  { cx := r1, cy := r2, w := w, h := h }

/-- C9 (amended): the random horizontal value is clamped to
`[0, WINDOW_WIDTH - w]` but used as the CENTER x, so the spawned meteor
never extends past the right edge (right edge at most `WINDOW_WIDTH - w/2`)
yet may overhang the LEFT edge by up to half its width (left edge down to
`-w/2`) — the full width is not guaranteed on-screen; the vertical center
position is strictly above the visible play area. -/
theorem meteor_spawn_bounds (w h r1 r2 : ℚ) (hw : 0 ≤ w) (h1 : 0 ≤ r1)
    (h2 : r1 ≤ WINDOW_WIDTH - w) (_h3 : -200 ≤ r2) (h4 : r2 ≤ -50) :
    (meteor_init_rect w h r1 r2).right ≤ WINDOW_WIDTH
    ∧ -(w / 2) ≤ (meteor_init_rect w h r1 r2).left
    ∧ (meteor_init_rect w h r1 r2).cy < 0 := by
  refine ⟨?_, ?_, ?_⟩ <;>
    simp only [meteor_init_rect, FRect.right, FRect.left] <;> linarith

/-- Witness for `meteor_spawn_bounds` at width 100, random values 0, -100. -/
theorem meteor_spawn_bounds_witness :
    (meteor_init_rect 100 80 0 (-100)).right ≤ WINDOW_WIDTH :=
  (meteor_spawn_bounds 100 80 0 (-100) (by norm_num) (by norm_num)
    (by norm_num [WINDOW_WIDTH]) (by norm_num) (by norm_num)).1

/-- C9 counterexample: a width-100 meteor spawned with horizontal random
value 0 — legal, since the clamp range is `[0, WINDOW_WIDTH - 100]` — has
its left edge at -50, so part of the hazard extends past the left edge of
the screen. -/
theorem meteor_spawn_left_overhang :
    (meteor_init_rect 100 80 0 (-100)).left < 0
    ∧ (0 : ℚ) ≤ 0 ∧ (0 : ℚ) ≤ WINDOW_WIDTH - 100 := by
  norm_num [meteor_init_rect, FRect.left, WINDOW_WIDTH]

/-- Pygame events as seen by the game-over branch: only QUIT is inspected,
every other event type is inert there. -/
inductive GEvent where
  | quit
  | other
  deriving DecidableEq

/-- Mutable game state visible to a game-over frame of `run_game`: score,
displayed level, player lives and the loop's `running` flag. -/
structure GameState where
  score : ℕ
  level : ℕ
  lives : ℤ
  running : Bool
  deriving DecidableEq

/-- Event loop of a game-over frame (lines 487-498): for each PENDING event,
a QUIT event clears `running`, then — since `game_over` holds — the
currently-pressed key state is sampled: SPACE returns restart (`some true`),
ESC returns quit (`some false`).  With the event queue exhausted, the loop
falls through (`none`) carrying the possibly cleared `running` flag. -/
def game_over_controls (space esc : Bool) :
    List GEvent → Bool → Option Bool × Bool
  | [], running => (none, running)
  | e :: rest, running =>
    if space then (some true, if e = GEvent.quit then false else running)
    else if esc then (some false, if e = GEvent.quit then false else running)
    else game_over_controls space esc rest
      (if e = GEvent.quit then false else running)

/-- One frame of `run_game` in the game-over phase (lines 487-510): run the
event loop; on `some outcome` the function returns with that outcome, and
otherwise the frame only redraws and issues `continue`, leaving every state
variable untouched except a `running` flag cleared by a QUIT event. -/
def game_over_frame (st : GameState) (events : List GEvent)
    (space esc : Bool) : Option Bool × GameState :=
  ((game_over_controls space esc events st.running).1,
    { st with running := (game_over_controls space esc events st.running).2 })

/-- C10: in the game-over phase the restart/quit keys are sampled only while
iterating the pending event queue, so a game-over frame whose event queue is
empty changes no game state and neither restarts nor quits, regardless of
which keys (including SPACE and ESC) are currently held down. -/
theorem game_over_idle_frame (st : GameState) (space esc : Bool) :
    game_over_frame st [] space esc = (none, st) := by
  cases st
  rfl

/-- Witness for `game_over_idle_frame` with SPACE and ESC both held. -/
theorem game_over_idle_frame_witness :
    game_over_frame { score := 0, level := 1, lives := 3, running := true }
        [] true true
      = (none, { score := 0, level := 1, lives := 3, running := true }) :=
  game_over_idle_frame { score := 0, level := 1, lives := 3, running := true }
    true true
